import Mathlib

/-
Verification of the madsim simulated transport and its tagged streaming
channel against the design document.

Part 1 embeds the Tagged Streaming Channel of madsim-tonic/src/codec.rs.
Part 2 models the simulated TCP transport (listener, stream, fault
injection); its implementation files are not part of the provided sources,
so those definitions are modelled from the specification and from the test
suite in madsim/src/sim/net/tcp/mod.rs.
-/

namespace MadsimProof

/-- Transport status error reported by the underlying Endpoint
(the Status type of the RPC layer), abstracted to a numeric code. -/
structure Status where
  code : Nat
deriving DecidableEq, Repr

/-- A type-erased message as delivered by Endpoint::recv_from_raw.  The code
downcasts it at runtime: it is either a value of the expected item type T
(downcast to T succeeds), the reserved StreamEnd sentinel (codec.rs line 56),
or a value of some unrelated type (both downcasts fail). -/
inductive Payload (T : Type) where
  | item : T → Payload T
  | streamEnd : Payload T
  | other : Payload T
deriving DecidableEq, Repr

/-- State of a Streaming channel (codec.rs Streaming::new).  The endpoint is
modelled as a map from tag to the message delivered at that tag (reliable
in-order delivery per tag, per the Endpoint contract); recv at a tag either
yields that payload or fails with a Status.  The field taskAlive records
whether the paired request-sending task handle is still owned by the
generator (it is wrapped with cancel_on_drop at codec.rs line 32, so
taskAlive = false means the task has been cancelled).  The field terminated
records that the generator has returned, after which the stream yields
nothing further. -/
structure Streaming (T : Type) where
  ep : Nat → Except Status (Payload T)
  cursor : Nat
  taskAlive : Bool
  terminated : Bool

/-- Constructor of the channel (codec.rs Streaming::new): receiving starts at
the given tag; hasTask records whether a request_sending_task was supplied. -/
def Streaming.new {T : Type} (ep : Nat → Except Status (Payload T))
    (tag : Nat) (hasTask : Bool) : Streaming T :=
  ⟨ep, tag, hasTask, false⟩

/-- One poll result of the underlying lazy stream: Some(Ok item),
Some(Err status), None (stream finished), or a panic of the generator
(the unchecked downcast unwrap at codec.rs line 39). -/
inductive PollOut (T : Type) where
  | yielded : Except Status T → PollOut T
  | finished : PollOut T
  | panicked : PollOut T

/-- One step of the generator produced by the try-stream block in
Streaming::new (codec.rs lines 29-42): if already finished yield nothing;
otherwise receive at the cursor tag; an endpoint error is yielded as Err and
ends the generator (dropping the task handle); the StreamEnd sentinel ends
the generator; a T item is yielded and the cursor moves to the next tag; a
message of any other type makes the downcast unwrap panic. -/
def Streaming.pollNext {T : Type} (s : Streaming T) : PollOut T × Streaming T :=
  if s.terminated then (.finished, s)
  else
    match s.ep s.cursor with
    | .error e => (.yielded (.error e), { s with terminated := true, taskAlive := false })
    | .ok (.item x) => (.yielded (.ok x), { s with cursor := s.cursor + 1 })
    | .ok .streamEnd => (.finished, { s with terminated := true, taskAlive := false })
    | .ok .other => (.panicked, { s with terminated := true, taskAlive := false })

/-- Result of Streaming::message: Ok(Some item), Ok(None) at end of stream,
Err(status), or a panic propagated from the generator. -/
inductive MsgResult (T : Type) where
  | ok : Option T → MsgResult T
  | err : Status → MsgResult T
  | panicked : MsgResult T
deriving DecidableEq, Repr

/-- The transpose step of Streaming::message (codec.rs line 61):
Option-of-Result becomes Result-of-Option. -/
def transposeOut {T : Type} : PollOut T → MsgResult T
  | .yielded (.ok x) => .ok (some x)
  | .yielded (.error e) => .err e
  | .finished => .ok none
  | .panicked => .panicked

/-- Streaming::message (codec.rs lines 60-62): one poll of the stream,
transposed. -/
def Streaming.message {T : Type} (s : Streaming T) : MsgResult T × Streaming T :=
  (transposeOut (s.pollNext).1, (s.pollNext).2)

/-- Dropping the channel: the boxed generator state, including the
cancel_on_drop task handle bound at codec.rs line 32, is dropped, which
cancels the paired request-sending task. -/
def Streaming.drop {T : Type} (s : Streaming T) : Streaming T :=
  { s with taskAlive := false, terminated := true }

/-- Iterate message n times, keeping the final channel state. -/
def Streaming.runSteps {T : Type} : Streaming T → Nat → Streaming T
  | s, 0 => s
  | s, n + 1 => Streaming.runSteps (s.message).2 n

/-- How a run of the lazy sequence ends: graceful end (sentinel received),
a propagated endpoint error, a downcast panic, or still pending (the bound
on observed steps was reached first). -/
inductive Outcome (T : Type) where
  | done : Outcome T
  | failed : Status → Outcome T
  | panicked : Outcome T
  | pending : Outcome T
deriving DecidableEq, Repr

/-- Denotation of the try-stream block of Streaming::new: the items yielded
when receiving from consecutive tags starting at tag, observed for at most
fuel receives, together with how the sequence ended. -/
def streamingRun {T : Type} (ep : Nat → Except Status (Payload T)) :
    Nat → Nat → List T × Outcome T
  | _, 0 => ([], .pending)
  | tag, fuel + 1 =>
    match ep tag with
    | .error e => ([], .failed e)
    | .ok .streamEnd => ([], .done)
    | .ok .other => ([], .panicked)
    | .ok (.item x) =>
      let r := streamingRun ep (tag + 1) fuel
      (x :: r.1, r.2)

/-- The pull-based view: repeatedly call message, collecting items until an
end-of-stream signal, an error, or a panic. -/
def collectMessages {T : Type} : Streaming T → Nat → List T × Outcome T
  | _, 0 => ([], .pending)
  | s, n + 1 =>
    match s.message with
    | (.ok none, _) => ([], .done)
    | (.err e, _) => ([], .failed e)
    | (.panicked, _) => ([], .panicked)
    | (.ok (some x), s2) =>
      let r := collectMessages s2 n
      (x :: r.1, r.2)

/-- A simulation participant identity. -/
abbrev NodeId := Nat

/-- Modelled from the spec: an Address is a (network identity, port) pair
(spec section 3); the listener and stream sources are not in the provided
sources. -/
structure SockAddr where
  ip : Nat
  port : Nat
deriving DecidableEq, Repr

/-- Modelled from the spec: the Fault-Injection Controller (NetSim) state,
a set of disconnected nodes and a set of disconnected unordered node pairs
(spec section 3, Connectivity state); the controller implementation is not
in the provided sources. -/
structure NetSim where
  disconnectedNodes : List NodeId
  disconnectedPairs : List (NodeId × NodeId)
deriving DecidableEq, Repr

/-- A node is globally reachable when it is not in the disconnected set. -/
def NetSim.nodeUp (net : NetSim) (n : NodeId) : Bool :=
  !(net.disconnectedNodes.contains n)

/-- The unordered pair is not pairwise muted. -/
def NetSim.pairUp (net : NetSim) (a b : NodeId) : Bool :=
  !(net.disconnectedPairs.contains (a, b) || net.disconnectedPairs.contains (b, a))

/-- Both nodes are up and the pair is not muted. -/
def NetSim.reachable (net : NetSim) (a b : NodeId) : Bool :=
  net.nodeUp a && net.nodeUp b && net.pairUp a b

/-- Modelled from the spec: disconnect(node) marks a node globally
unreachable (spec section 4.1). -/
def NetSim.disconnect (net : NetSim) (n : NodeId) : NetSim :=
  { net with disconnectedNodes := n :: net.disconnectedNodes }

/-- Modelled from the spec: connect(node) restores global reachability
(spec section 4.1). -/
def NetSim.connect (net : NetSim) (n : NodeId) : NetSim :=
  { net with disconnectedNodes := net.disconnectedNodes.filter (fun m => m != n) }

/-- Modelled from the spec: disconnect2(a, b) mutes only the unordered pair
(spec section 4.1). -/
def NetSim.disconnect2 (net : NetSim) (a b : NodeId) : NetSim :=
  { net with disconnectedPairs := (a, b) :: net.disconnectedPairs }

/-- Modelled from the spec: connect2(a, b) unmutes the unordered pair
(spec section 4.1). -/
def NetSim.connect2 (net : NetSim) (a b : NodeId) : NetSim :=
  { net with disconnectedPairs :=
      net.disconnectedPairs.filter (fun p => p != (a, b) && p != (b, a)) }

/-- Modelled from the spec: the per-endpoint state of one established
connection (spec section 3, Stream state).  The local half is Open,
HalfClosed, Reset (hard failure) or Closed (graceful termination).  outBuf
holds bytes written but not yet flushed; inbox holds the payloads in flight
toward this half, in the order the peer flushed them (per-connection tag
sequencing of the flat Endpoint tag space guarantees this order). -/
inductive HalfState where
  | opened
  | halfClosed
  | wasReset
  | wasClosed
deriving DecidableEq, Repr

/-- One endpoint of an established connection; see HalfState. -/
structure ConnHalf where
  connId : Nat
  localNode : NodeId
  peerNode : NodeId
  state : HalfState
  outBuf : List Nat
  inbox : List (List Nat)
deriving DecidableEq, Repr

/-- Error taxonomy of the transport (spec section 7). -/
inductive TcpError where
  | unreachable
  | connectionRefused
  | connectionReset
  | listenerClosed
deriving DecidableEq, Repr

/-- Modelled from the spec: Listener state, address plus pending-accept
queue of (peer node, ConnectionId) and a liveness flag (spec section 3). -/
structure ListenerRec where
  node : NodeId
  addr : SockAddr
  alive : Bool
  pendingQueue : List (NodeId × Nat)
deriving DecidableEq, Repr

/-- Result of polling accept: a new connection, a failure, or suspension. -/
inductive AcceptOut where
  | accepted : NodeId → Nat → AcceptOut
  | failed : TcpError → AcceptOut
  | pending : AcceptOut
deriving DecidableEq, Repr

/-- Modelled from the spec: one poll of Listener::accept (spec section 4.2).
An invalidated listener fails with listener-closed; with an empty queue the
accept stays suspended; otherwise the oldest pending request is served in
FIFO order.  The test disconnect_and_recovery (tcp/mod.rs lines 117-120)
shows that a suspended accept on a globally disconnected node stays
suspended for the whole timeout rather than failing, so reachability is not
consulted here: a disconnected node simply receives no requests. -/
def ListenerRec.acceptStep (l : ListenerRec) : AcceptOut × ListenerRec :=
  if l.alive then
    match l.pendingQueue with
    | [] => (.pending, l)
    | (peer, cid) :: rest => (.accepted peer cid, { l with pendingQueue := rest })
  else (.failed .listenerClosed, l)

/-- Result of a connect attempt: the accepting node, or a failure, or
suspension (which the establishment protocol never produces, spec
section 4.2: refused or unreachable rather than hanging). -/
inductive ConnectOut where
  | established : NodeId → ConnectOut
  | failed : TcpError → ConnectOut
  | pending : ConnectOut
deriving DecidableEq, Repr

/-- Modelled from the spec: the connection establishment check (spec
section 4.2).  No live listener on the target address fails with
connection-refused; a live listener behind an unreachable node or pair
fails with unreachable; otherwise the request reaches the listener. -/
def connectAttempt (net : NetSim) (listeners : List ListenerRec)
    (src : NodeId) (addr : SockAddr) : ConnectOut :=
  match listeners.find? (fun l => l.addr == addr && l.alive) with
  | none => .failed .connectionRefused
  | some l => if net.reachable src l.node then .established l.node else .failed .unreachable

/-- Result of polling Stream read: a delivered payload, a zero-byte
end-of-stream, a failure, or suspension. -/
inductive ReadOut where
  | bytes : List Nat → ReadOut
  | eof : ReadOut
  | failed : TcpError → ReadOut
  | pending : ReadOut
deriving DecidableEq, Repr

/-- Modelled from the spec: one poll of Stream::read (spec section 4.3).
A Reset stream fails with connection-reset; a Closed stream observes
end-of-stream (zero bytes); otherwise connectivity is re-checked at receive
time (spec sections 3 and 4.1): a global disconnect of either node fails
with unreachable, a pairwise mute defers delivery (the read stays pending,
per the disconnect_and_recovery phase-4 scenario), and otherwise the oldest
in-flight payload is delivered in flush order. -/
def ConnHalf.readStep (net : NetSim) (h : ConnHalf) : ReadOut × ConnHalf :=
  match h.state with
  | .wasReset => (.failed .connectionReset, h)
  | .wasClosed => (.eof, h)
  | _ =>
    if !(net.nodeUp h.localNode && net.nodeUp h.peerNode) then (.failed .unreachable, h)
    else if !(net.pairUp h.localNode h.peerNode) then (.pending, h)
    else
      match h.inbox with
      | [] => (.pending, h)
      | p :: rest => (.bytes p, { h with inbox := rest })

/-- Repeatedly poll read, collecting delivered payloads until the first
poll that does not deliver one. -/
def ConnHalf.readAll (net : NetSim) : ConnHalf → Nat → List (List Nat)
  | _, 0 => []
  | h, n + 1 =>
    match h.readStep net with
    | (.bytes p, h2) => p :: ConnHalf.readAll net h2 n
    | _ => []

/-- Modelled from the spec: Stream::write buffers bytes locally (spec
section 4.3); the reset test (tcp/mod.rs lines 192-193) shows write itself
succeeds even on a reset stream and the failure surfaces at flush. -/
def ConnHalf.writeBytes (h : ConnHalf) (bs : List Nat) : ConnHalf :=
  { h with outBuf := h.outBuf ++ bs }

/-- Simulation state: connectivity, listeners and connection halves. -/
structure World where
  net : NetSim
  listeners : List ListenerRec
  halves : List ConnHalf
deriving DecidableEq, Repr

/-- The half of connection cid owned by the given node, if any. -/
def World.findHalf (w : World) (cid : Nat) (node : NodeId) : Option ConnHalf :=
  w.halves.find? (fun h => h.connId == cid && h.localNode == node)

/-- Replace the half of the same connection and owner by h. -/
def World.setHalf (w : World) (h : ConnHalf) : World :=
  let hs := w.halves.map
    (fun g => if g.connId == h.connId && g.localNode == h.localNode then h else g)
  { w with halves := hs }

/-- Modelled from the spec: Listener::bind registers an empty accept queue,
failing if the address is already bound on this node (spec section 4.2). -/
def World.bind (w : World) (n : NodeId) (addr : SockAddr) : Option World :=
  if w.listeners.any (fun l => l.node == n && l.addr == addr && l.alive) then none
  else some { w with listeners := w.listeners ++ [⟨n, addr, true, []⟩] }

/-- Modelled from the spec: the connect side of the establishment protocol
(spec section 4.2) as a world transition: on success the request is
enqueued on the live listener of the target address with a fresh
ConnectionId cid; otherwise the world is unchanged and the attempt fails
as in connectAttempt. -/
def World.connectRequest (w : World) (src : NodeId) (addr : SockAddr)
    (cid : Nat) : ConnectOut × World :=
  match w.listeners.find? (fun l => l.addr == addr && l.alive) with
  | none => (.failed .connectionRefused, w)
  | some l =>
    if w.net.reachable src l.node then
      let ls := w.listeners.map
        (fun g => if g.node == l.node && g.addr == addr then
          { g with pendingQueue := g.pendingQueue ++ [(src, cid)] } else g)
      (.established l.node, { w with listeners := ls })
    else (.failed .unreachable, w)

/-- Modelled from the spec: the accept side of the establishment protocol
(spec section 4.2) as a world transition: one poll of accept on the given
listener of the node; on success both halves of the new connection are created
Open (the acknowledgement completes the connect side). -/
def World.acceptConn (w : World) (n : NodeId) (addr : SockAddr) : AcceptOut × World :=
  match w.listeners.find? (fun l => l.node == n && l.addr == addr) with
  | none => (.failed .listenerClosed, w)
  | some l =>
    match l.acceptStep with
    | (.accepted peer cid, l2) =>
      let ls := w.listeners.map (fun g => if g.node == n && g.addr == addr then l2 else g)
      let hs := w.halves ++
        [⟨cid, n, peer, .opened, [], []⟩, ⟨cid, peer, n, .opened, [], []⟩]
      (.accepted peer cid, { w with listeners := ls, halves := hs })
    | (out, _) => (out, w)

/-- Write bytes to the half of cid owned by node (buffered locally). -/
def World.writeBytes (w : World) (cid : Nat) (node : NodeId) (bs : List Nat) : World :=
  match w.findHalf cid node with
  | none => w
  | some h => w.setHalf (h.writeBytes bs)

/-- Result of Stream::flush. -/
inductive FlushOut where
  | ok : FlushOut
  | failed : TcpError → FlushOut
deriving DecidableEq, Repr

/-- Modelled from the spec: Stream::flush (spec section 4.3) sends the
buffered bytes as one payload tagged with the next send cursor.  It fails
with connection-reset on a Reset or Closed stream and with unreachable
while either node is globally disconnected; while only the pair is muted
the payload still enters flight and its delivery is deferred (spec
section 9 resolves the open question as deferred, per the phase-4 scenario
of disconnect_and_recovery). -/
def World.flush (w : World) (cid : Nat) (node : NodeId) : FlushOut × World :=
  match w.findHalf cid node with
  | none => (.failed .connectionReset, w)
  | some h =>
    match h.state with
    | .wasReset => (.failed .connectionReset, w)
    | .wasClosed => (.failed .connectionReset, w)
    | _ =>
      if !(w.net.nodeUp h.localNode && w.net.nodeUp h.peerNode) then
        (.failed .unreachable, w)
      else if h.outBuf.isEmpty then (.ok, w)
      else
        match w.findHalf cid h.peerNode with
        | none => (.failed .connectionReset, w)
        | some ph =>
          (.ok, (w.setHalf { h with outBuf := [] }).setHalf
            { ph with inbox := ph.inbox ++ [h.outBuf] })

/-- Poll read on the half of cid owned by node. -/
def World.readStep (w : World) (cid : Nat) (node : NodeId) : ReadOut × World :=
  match w.findHalf cid node with
  | none => (.failed .connectionReset, w)
  | some h =>
    let r := h.readStep w.net
    (r.1, w.setHalf r.2)

/-- Modelled from the spec: reset_node (spec section 4.1) moves every
stream half on the reset node to Reset and invalidates every listener the
node owns; the peer half observes termination of the connection — the
reset test (tcp/mod.rs lines 202-204) and the section 8 reset scenario
make the next read of the peer return zero bytes (a clean end-of-stream), so
the peer half moves to Closed. -/
def World.resetNode (w : World) (n : NodeId) : World :=
  let ls := w.listeners.map
    (fun l => if l.node == n then { l with alive := false } else l)
  let hs := w.halves.map
    (fun h =>
      if h.localNode == n then { h with state := .wasReset }
      else if h.peerNode == n then { h with state := .wasClosed }
      else h)
  { w with listeners := ls, halves := hs }

/-- Decidable equality of Except values, used to evaluate concrete runs. -/
instance instDecEqExcept {α β : Type} [DecidableEq α] [DecidableEq β] :
    DecidableEq (Except α β) := fun x y =>
  match x, y with
  | .ok a, .ok b =>
    if h : a = b then isTrue (by rw [h]) else isFalse (fun hc => h (Except.ok.inj hc))
  | .error a, .error b =>
    if h : a = b then isTrue (by rw [h]) else isFalse (fun hc => h (Except.error.inj hc))
  | .ok _, .error _ => isFalse (fun hc => Except.noConfusion hc)
  | .error _, .ok _ => isFalse (fun hc => Except.noConfusion hc)

/-- A concrete endpoint delivering the items 10 and 11 at tags 5 and 6 and
the end-of-stream sentinel at every other tag. -/
def epGood : Nat → Except Status (Payload Nat) := fun c =>
  if c = 5 then .ok (.item 10) else if c = 6 then .ok (.item 11) else .ok .streamEnd

/-- A concrete endpoint delivering the items 3, 4, 5 at tags 9, 10, 11 and
the end-of-stream sentinel at every other tag. -/
def epList : Nat → Except Status (Payload Nat) := fun c =>
  if c = 9 then .ok (.item 3) else if c = 10 then .ok (.item 4)
  else if c = 11 then .ok (.item 5) else .ok .streamEnd

/-- A concrete endpoint failing every receive with status code 7. -/
def epErr : Nat → Except Status (Payload Nat) := fun _ => .error ⟨7⟩

/-- A concrete endpoint delivering a message of an unexpected type at
tag 3 and the end-of-stream sentinel elsewhere. -/
def epBad : Nat → Except Status (Payload Nat) := fun c =>
  if c = 3 then .ok .other else .ok .streamEnd

/-- The address 10.0.0.1:1 of the test scenarios, with the network identity
abstracted to 1. -/
def addr1 : SockAddr := ⟨1, 1⟩

/-- The 11 bytes of the payload "hello world". -/
def helloWorld : List Nat := [104, 101, 108, 108, 111, 32, 119, 111, 114, 108, 100]

/-- The empty simulation world: full connectivity, no listeners, no
connections. -/
def emptyWorld : World := ⟨⟨[], []⟩, [], []⟩

/-- A controller state with full connectivity. -/
def netOk : NetSim := ⟨[], []⟩

/-- An open connection half of node 1 with two payloads in flight toward
it. -/
def halfC : ConnHalf := ⟨0, 1, 2, .opened, [], [[1], [2, 3]]⟩

/-- Scenario send_recv, step 1: node 1 binds a listener on 10.0.0.1:1. -/
def sendRecvW1 : World := (emptyWorld.bind 1 addr1).getD emptyWorld

/-- Scenario send_recv, step 2: node 2 sends a connection request. -/
def sendRecvW2 : World := (sendRecvW1.connectRequest 2 addr1 0).2

/-- Scenario send_recv, step 3: node 1 accepts, establishing connection 0. -/
def sendRecvW3 : World := (sendRecvW2.acceptConn 1 addr1).2

/-- Scenario send_recv, step 4: node 1 writes the hello-world bytes. -/
def sendRecvW4 : World := sendRecvW3.writeBytes 0 1 helloWorld

/-- Scenario send_recv, step 5: node 1 flushes them toward node 2. -/
def sendRecvW5 : World := (sendRecvW4.flush 0 1).2

/-- Scenario reset, after establishment of connection 0 from node 2 to
node 1 (the same first three steps as send_recv). -/
def resetW3 : World :=
  (((((emptyWorld.bind 1 addr1).getD emptyWorld).connectRequest 2 addr1 0).2).acceptConn 1 addr1).2

/-- Scenario reset: a second connection request from node 2 is pending in
the accept queue of node 1. -/
def resetWq : World := (resetW3.connectRequest 2 addr1 1).2

/-- Scenario reset: a third party resets node 1. -/
def resetW4 : World := resetWq.resetNode 1

/-- Scenario reset: node 1 writes the hello-world bytes (the write itself
buffers and succeeds; the failure surfaces at flush). -/
def resetW5 : World := resetW4.writeBytes 0 1 helloWorld

/-- Phase 2 of disconnect_and_recovery: node 1 disconnected itself and
bound a listener; no connection request has arrived. -/
def discPhase2 : World := ⟨⟨[1], []⟩, [⟨1, addr1, true, []⟩], []⟩

/-- A world where node 1 is disconnected and an established connection
between nodes 1 and 2 has unflushed bytes on the node-1 side and payloads
in flight in both directions. -/
def discWitW : World :=
  ⟨⟨[1], []⟩, [⟨1, addr1, true, []⟩],
   [⟨0, 1, 2, .opened, [3], [[7]]⟩, ⟨0, 2, 1, .opened, [], [[9]]⟩]⟩

/-- A live listener owned by node 1. -/
def discListener : ListenerRec := ⟨1, addr1, true, []⟩

/-- An established connection between a and b, with the bytes bs written
but not yet flushed on the a side, while the pair (a, b) is muted. -/
def pairWorld (a b : NodeId) (cid : Nat) (bs : List Nat) : World :=
  ⟨⟨[], [(a, b)]⟩, [], [⟨cid, a, b, .opened, bs, []⟩, ⟨cid, b, a, .opened, [], []⟩]⟩

/-- Unmute the pair (a, b) in a world. -/
def World.connect2 (w : World) (a b : NodeId) : World :=
  { w with net := w.net.connect2 a b }

/-- If the endpoint delivers the list msgs at consecutive tags from base and
the sentinel right after it, the stream run collects exactly msgs and ends
gracefully, whatever the endpoint holds at unrelated tags. -/
theorem streamingRun_sends {T : Type} (msgs : List T) :
    ∀ (base fuel : Nat) (ep : Nat → Except Status (Payload T)),
      msgs.length < fuel →
      (∀ i (h : i < msgs.length), ep (base + i) = .ok (.item msgs[i])) →
      ep (base + msgs.length) = .ok .streamEnd →
      streamingRun ep base fuel = (msgs, .done) := by
  induction msgs with
  | nil =>
    intro base fuel ep hfuel _ hend
    cases fuel with
    | zero => omega
    | succ f =>
      simp only [List.length_nil, Nat.add_zero] at hend
      simp [streamingRun, hend]
  | cons x xs ih =>
    intro base fuel ep hfuel hsend hend
    cases fuel with
    | zero => omega
    | succ f =>
      have h0 : ep base = .ok (.item x) := by
        have h := hsend 0 (by simp)
        simpa using h
      have hrest := ih (base + 1) f ep (by simp at hfuel; omega)
        (fun i hi => by
          have h := hsend (i + 1) (by simp; omega)
          have he : base + (i + 1) = base + 1 + i := by omega
          rw [he] at h
          simpa using h)
        (by
          have he : base + (x :: xs).length = base + 1 + xs.length := by simp; omega
          rw [he] at hend
          exact hend)
      simp [streamingRun, h0, hrest]

/-- Conversely, a run that ends gracefully collected exactly the items the
endpoint delivered at consecutive tags, with the sentinel right after
them. -/
theorem streamingRun_done_inv {T : Type} (ep : Nat → Except Status (Payload T)) :
    ∀ (fuel t : Nat) (l : List T), streamingRun ep t fuel = (l, .done) →
      (∀ i (h : i < l.length), ep (t + i) = .ok (.item l[i])) ∧
      ep (t + l.length) = .ok .streamEnd := by
  intro fuel
  induction fuel with
  | zero =>
    intro t l hrun
    exact absurd (congrArg Prod.snd hrun) (by simp [streamingRun])
  | succ f ih =>
    intro t l hrun
    simp only [streamingRun] at hrun
    cases hept : ep t with
    | error e =>
      rw [hept] at hrun
      exact absurd (congrArg Prod.snd hrun) (by simp)
    | ok p =>
      cases p with
      | streamEnd =>
        rw [hept] at hrun
        have hl : l = [] := by
          have h := congrArg Prod.fst hrun
          simpa using h.symm
        subst hl
        refine ⟨fun i hi => by simp at hi, by simpa using hept⟩
      | other =>
        rw [hept] at hrun
        exact absurd (congrArg Prod.snd hrun) (by simp)
      | item x =>
        rw [hept] at hrun
        have hl : l = x :: (streamingRun ep (t + 1) f).1 := by
          have h := congrArg Prod.fst hrun
          simpa using h.symm
        have ho : (streamingRun ep (t + 1) f).2 = Outcome.done := by
          have h := congrArg Prod.snd hrun
          simpa using h
        have hrec : streamingRun ep (t + 1) f = ((streamingRun ep (t + 1) f).1, Outcome.done) := by
          rw [← ho]
        obtain ⟨hitems, hsent⟩ := ih (t + 1) (streamingRun ep (t + 1) f).1 hrec
        subst hl
        constructor
        · intro i hi
          cases i with
          | zero => simpa using hept
          | succ j =>
            have hj : j < (streamingRun ep (t + 1) f).1.length := by simp at hi; omega
            have h := hitems j hj
            have he : t + (j + 1) = t + 1 + j := by omega
            rw [he]
            simpa using h
        · have he : t + (x :: (streamingRun ep (t + 1) f).1).length
              = t + 1 + (streamingRun ep (t + 1) f).1.length := by simp; omega
          rw [he]
          exact hsent

/-- The pull-based view (repeatedly calling message on a fresh channel) and
the push-based view (the collected lazy sequence) agree. -/
theorem collectMessages_eq_run {T : Type} (ep : Nat → Except Status (Payload T)) (b : Bool) :
    ∀ (fuel t : Nat), collectMessages (Streaming.new ep t b) fuel = streamingRun ep t fuel := by
  intro fuel
  induction fuel with
  | zero => intro t; rfl
  | succ f ih =>
    intro t
    cases hept : ep t with
    | error e =>
      simp [collectMessages, streamingRun, Streaming.message, Streaming.pollNext,
        Streaming.new, transposeOut, hept]
    | ok p =>
      cases p with
      | item x =>
        simp only [collectMessages, streamingRun, Streaming.message, Streaming.pollNext,
          Streaming.new, transposeOut, hept, Bool.false_eq_true, if_false]
        have h := ih (t + 1)
        simp only [Streaming.new] at h
        simp [h]
      | streamEnd =>
        simp [collectMessages, streamingRun, Streaming.message, Streaming.pollNext,
          Streaming.new, transposeOut, hept]
      | other =>
        simp [collectMessages, streamingRun, Streaming.message, Streaming.pollNext,
          Streaming.new, transposeOut, hept]

/-- If every message at the consumed tags is either typed or the sentinel,
the run never panics. -/
theorem streamingRun_no_panic {T : Type} (ep : Nat → Except Status (Payload T)) :
    ∀ (fuel t : Nat), (∀ c, t ≤ c → ep c ≠ .ok .other) →
      (streamingRun ep t fuel).2 ≠ Outcome.panicked := by
  intro fuel
  induction fuel with
  | zero => intro t _; simp [streamingRun]
  | succ f ih =>
    intro t hok
    cases hept : ep t with
    | error e => simp [streamingRun, hept]
    | ok p =>
      cases p with
      | item x =>
        simp only [streamingRun, hept]
        exact ih (t + 1) (fun c hc => hok c (by omega))
      | streamEnd => simp [streamingRun, hept]
      | other => exact absurd hept (hok t (by omega))

/-- The generator owns the task handle until it finishes, and dropping the
handle is what cancels the task: once the channel is terminated the task is
no longer alive, and this is preserved by every message step. -/
theorem runSteps_task_inv {T : Type} :
    ∀ (n : Nat) (s : Streaming T), (s.terminated = true → s.taskAlive = false) →
      ((s.runSteps n).terminated = true → (s.runSteps n).taskAlive = false) := by
  intro n
  induction n with
  | zero => intro s hs; exact hs
  | succ m ih =>
    intro s hs
    simp only [Streaming.runSteps]
    apply ih
    cases ht : s.terminated with
    | true =>
      simp only [Streaming.message, Streaming.pollNext, ht, if_true]
      exact fun _ => hs ht
    | false =>
      cases hept : s.ep s.cursor with
      | error e => simp [Streaming.message, Streaming.pollNext, ht, hept]
      | ok p =>
        cases p with
        | item x => simp [Streaming.message, Streaming.pollNext, ht, hept]
        | streamEnd => simp [Streaming.message, Streaming.pollNext, ht, hept]
        | other => simp [Streaming.message, Streaming.pollNext, ht, hept]

/-- An open half with full connectivity delivers its in-flight payloads in
exactly the order they entered flight. -/
theorem readAll_inbox (net : NetSim) :
    ∀ (l : List (List Nat)) (h : ConnHalf), h.inbox = l → h.state = .opened →
      net.nodeUp h.localNode = true → net.nodeUp h.peerNode = true →
      net.pairUp h.localNode h.peerNode = true →
      ConnHalf.readAll net h l.length = l := by
  intro l
  induction l with
  | nil => intro h _ _ _ _ _; rfl
  | cons p rest ih =>
    intro h hin hst hl hp hpair
    have hstep : h.readStep net = (.bytes p, { h with inbox := rest }) := by
      simp [ConnHalf.readStep, hst, hl, hp, hpair, hin]
    have hr := ih { h with inbox := rest } rfl (by simpa using hst)
      (by simpa using hl) (by simpa using hp) (by simpa using hpair)
    simp [ConnHalf.readAll, hstep, hr]

/-- Pairwise disconnection leaves global node reachability untouched. -/
theorem nodeUp_disconnect2 (net : NetSim) (a b m : NodeId) :
    NetSim.nodeUp (net.disconnect2 a b) m = NetSim.nodeUp net m := rfl

/-- Pairwise disconnection mutes the pair itself. -/
theorem pairUp_disconnect2_self (net : NetSim) (a b : NodeId) :
    NetSim.pairUp (net.disconnect2 a b) a b = false := by
  simp [NetSim.pairUp, NetSim.disconnect2, List.contains_cons]

/-- Pairwise disconnection leaves every other pair untouched. -/
theorem pairUp_disconnect2_other (net : NetSim) (a b x y : NodeId)
    (hxy : ¬((x = a ∧ y = b) ∨ (x = b ∧ y = a))) :
    NetSim.pairUp (net.disconnect2 a b) x y = NetSim.pairUp net x y := by
  have h1 : ((x, y) == (a, b)) = false := by
    refine beq_eq_false_iff_ne.mpr (fun hc => hxy ?_)
    exact Or.inl ⟨congrArg Prod.fst hc, congrArg Prod.snd hc⟩
  have h2 : ((y, x) == (a, b)) = false := by
    refine beq_eq_false_iff_ne.mpr (fun hc => hxy ?_)
    exact Or.inr ⟨congrArg Prod.snd hc, congrArg Prod.fst hc⟩
  simp only [NetSim.pairUp, NetSim.disconnect2, List.contains_cons, h1, h2, Bool.false_or]

/-- A read poll only consults the controller through the reachability of
the two endpoints of the half itself, so controller states agreeing there give the
same result. -/
theorem readStep_congr (net1 net2 : NetSim) (h : ConnHalf)
    (hl : net1.nodeUp h.localNode = net2.nodeUp h.localNode)
    (hp : net1.nodeUp h.peerNode = net2.nodeUp h.peerNode)
    (hpair : net1.pairUp h.localNode h.peerNode = net2.pairUp h.localNode h.peerNode) :
    h.readStep net1 = h.readStep net2 := by
  cases hst : h.state <;> simp [ConnHalf.readStep, hst, hl, hp, hpair]

/-- Flushing the bytes written on the a side while the pair is muted
succeeds and moves them into flight toward b. -/
theorem pairWorld_flush (a b : NodeId) (cid : Nat) (c : Nat) (cs : List Nat) (hab : a ≠ b) :
    (pairWorld a b cid (c :: cs)).flush cid a =
      (FlushOut.ok,
       ⟨⟨[], [(a, b)]⟩, [],
        [⟨cid, a, b, .opened, [], []⟩, ⟨cid, b, a, .opened, [], [c :: cs]⟩]⟩) := by
  have hab2 : (a == b) = false := beq_eq_false_iff_ne.mpr hab
  have hba : (b == a) = false := beq_eq_false_iff_ne.mpr (Ne.symm hab)
  simp [pairWorld, World.flush, World.findHalf, World.setHalf, List.find?,
    NetSim.nodeUp, hab2, hba, hab, Ne.symm hab]

/-- While the pair stays muted, the read on the b side stays pending. -/
theorem pairWorld_read_pending (a b : NodeId) (cid : Nat) (p : List Nat) (hab : a ≠ b) :
    ((⟨⟨[], [(a, b)]⟩, [],
       [⟨cid, a, b, .opened, [], []⟩, ⟨cid, b, a, .opened, [], [p]⟩]⟩ : World).readStep cid b).1
      = ReadOut.pending := by
  have hab2 : (a == b) = false := beq_eq_false_iff_ne.mpr hab
  have hba : (b == a) = false := beq_eq_false_iff_ne.mpr (Ne.symm hab)
  have hpf : ((b, a) == (a, b)) = false := by
    refine beq_eq_false_iff_ne.mpr (fun hc => hab ?_)
    exact congrArg Prod.snd hc
  simp [World.readStep, World.findHalf, List.find?, ConnHalf.readStep,
    NetSim.nodeUp, NetSim.pairUp, List.contains_cons, hab2, hba, hpf, hab, Ne.symm hab]

/-- Once the pair is unmuted, the read on the b side delivers exactly the
deferred payload. -/
theorem pairWorld_read_after (a b : NodeId) (cid : Nat) (p : List Nat) (hab : a ≠ b) :
    (((⟨⟨[], [(a, b)]⟩, [],
        [⟨cid, a, b, .opened, [], []⟩, ⟨cid, b, a, .opened, [], [p]⟩]⟩ : World).connect2 a b).readStep
      cid b).1 = ReadOut.bytes p := by
  have hab2 : (a == b) = false := beq_eq_false_iff_ne.mpr hab
  have hba : (b == a) = false := beq_eq_false_iff_ne.mpr (Ne.symm hab)
  simp [World.connect2, NetSim.connect2, World.readStep, World.findHalf, List.find?,
    ConnHalf.readStep, NetSim.nodeUp, NetSim.pairUp, hab2, hba, hab, Ne.symm hab]

/-- C1: a Tagged Streaming Channel constructed with starting tag t receives
from consecutive tags t, t+1, t+2, ..., yields each received typed item in
that order, and terminates the sequence exactly when the message received
at the current tag is the end-of-stream sentinel: delivering k items at the
first k tags and the sentinel right after them produces exactly those items
and a graceful end, and conversely a gracefully ended run received exactly
consecutive typed items followed by the sentinel. -/
theorem streaming_consecutive_tags (T : Type) (ep : Nat → Except Status (Payload T))
    (t fuel : Nat) :
    (∀ (k : Nat) (a : Nat → T), k < fuel →
      (∀ i, i < k → ep (t + i) = .ok (.item (a i))) →
      ep (t + k) = .ok .streamEnd →
      streamingRun ep t fuel = ((List.range k).map a, .done))
    ∧ (∀ l : List T, streamingRun ep t fuel = (l, .done) →
      (∀ i (h : i < l.length), ep (t + i) = .ok (.item l[i])) ∧
      ep (t + l.length) = .ok .streamEnd) := by
  constructor
  · intro k a hk hitems hend
    apply streamingRun_sends
    · simpa using hk
    · intro i hi
      have hi2 : i < k := by simpa using hi
      have h := hitems i hi2
      simpa using h
    · simpa using hend
  · exact streamingRun_done_inv ep fuel t

/-- Witness for C1: the endpoint delivering 10 and 11 at tags 5 and 6 and
the sentinel at tag 7 yields exactly those two items. -/
theorem streaming_consecutive_tags_inst :
    streamingRun epGood 5 4 = ([10, 11], Outcome.done) := by
  have h := (streaming_consecutive_tags Nat epGood 5 4).1 2 (fun i => 10 + i)
    (by decide) (by decide) (by decide)
  have he : ((List.range 2).map (fun i => 10 + i)) = [10, 11] := by decide
  rw [he] at h
  exact h

/-- C2: for every connection, the items delivered appear exactly in the
order sent on that connection: with the payloads of the connection at its
consecutive tags followed by the sentinel, the channel run collects exactly
that list, with no reordering, duplication or loss, and independently of
what the endpoint carries at the tags of any other connection; and a TCP
connection half under full connectivity delivers its in-flight payloads in
exactly the order they were flushed. -/
theorem per_connection_order (T : Type) (msgs : List T) (base fuel : Nat)
    (ep : Nat → Except Status (Payload T)) (net : NetSim) :
    ((msgs.length < fuel →
      (∀ i (h : i < msgs.length), ep (base + i) = .ok (.item msgs[i])) →
      ep (base + msgs.length) = .ok .streamEnd →
      streamingRun ep base fuel = (msgs, .done)))
    ∧ (∀ h : ConnHalf, h.state = .opened → net.nodeUp h.localNode = true →
      net.nodeUp h.peerNode = true → net.pairUp h.localNode h.peerNode = true →
      ConnHalf.readAll net h h.inbox.length = h.inbox) := by
  constructor
  · exact streamingRun_sends msgs base fuel ep
  · intro h hst hl hp hpair
    exact readAll_inbox net h.inbox h rfl hst hl hp hpair

/-- Witness for C2: the payloads 3, 4, 5 sent at tags 9, 10, 11 are
delivered exactly in that order, and a half with two in-flight payloads
reads them back in flush order. -/
theorem per_connection_order_inst :
    streamingRun epList 9 7 = ([3, 4, 5], Outcome.done)
    ∧ ConnHalf.readAll netOk halfC (halfC.inbox).length = halfC.inbox := by
  constructor
  · exact (per_connection_order Nat [3, 4, 5] 9 7 epList netOk).1
      (by decide) (by decide) (by decide)
  · exact (per_connection_order Nat [3, 4, 5] 9 7 epList netOk).2 halfC rfl rfl rfl rfl

/-- C7: the paired request-sending task is owned by the channel and is
cancelled the moment the channel is discarded, regardless of how many
messages were consumed first and of why the consumption stopped; moreover
once the sequence of the channel has ended the task is already cancelled, so the
sender never runs once the channel is gone. -/
theorem drop_cancels_task (T : Type) (ep : Nat → Except Status (Payload T)) (t : Nat) :
    ∀ n : Nat,
      ((Streaming.new ep t true).runSteps n).drop.taskAlive = false
      ∧ (((Streaming.new ep t true).runSteps n).terminated = true →
        ((Streaming.new ep t true).runSteps n).taskAlive = false) := by
  intro n
  constructor
  · rfl
  · exact runSteps_task_inv n (Streaming.new ep t true) (by simp [Streaming.new])

/-- Witness for C7: after the concrete channel finishes (the sentinel
arrives at tag 7), the paired task is already cancelled. -/
theorem drop_cancels_task_inst :
    ((Streaming.new epGood 5 true).runSteps 4).terminated = true
    ∧ ((Streaming.new epGood 5 true).runSteps 4).taskAlive = false :=
  ⟨rfl, (drop_cancels_task Nat epGood 5 4).2 rfl⟩

/-- C8: a message call returns exactly a typed item, an end-of-stream
signal, or a propagated transport failure (when the messages at the
consumed tags are well typed); an endpoint failure is surfaced as exactly
that failure, never swallowed or converted to end-of-stream; and the
push-based lazy-sequence view of the channel agrees with repeatedly
calling the pull-based message operation. -/
theorem message_trichotomy_views (T : Type) (ep : Nat → Except Status (Payload T)) (t : Nat) :
    (∀ s : Streaming T, (s.terminated = false → s.ep s.cursor ≠ .ok .other) →
      (∃ x, (s.message).1 = .ok (some x)) ∨ (s.message).1 = .ok none
        ∨ ∃ e, (s.message).1 = .err e)
    ∧ (∀ (s : Streaming T) (e : Status), s.terminated = false → s.ep s.cursor = .error e →
      (s.message).1 = .err e)
    ∧ (∀ (fuel : Nat) (b : Bool), collectMessages (Streaming.new ep t b) fuel = streamingRun ep t fuel) := by
  refine ⟨?_, ?_, ?_⟩
  · intro s hs
    cases ht : s.terminated with
    | true =>
      right; left
      simp [Streaming.message, Streaming.pollNext, ht, transposeOut]
    | false =>
      cases hept : s.ep s.cursor with
      | error e =>
        right; right
        exact ⟨e, by simp [Streaming.message, Streaming.pollNext, ht, hept, transposeOut]⟩
      | ok p =>
        cases p with
        | item x =>
          left
          exact ⟨x, by simp [Streaming.message, Streaming.pollNext, ht, hept, transposeOut]⟩
        | streamEnd =>
          right; left
          simp [Streaming.message, Streaming.pollNext, ht, hept, transposeOut]
        | other => exact absurd hept (hs ht)
  · intro s e ht hept
    simp [Streaming.message, Streaming.pollNext, ht, hept, transposeOut]
  · intro fuel b
    exact collectMessages_eq_run ep b fuel t

/-- Witness for C8: a failing endpoint surfaces its status through message,
and pull and push views agree on a concrete channel. -/
theorem message_trichotomy_views_inst :
    ((⟨epErr, 0, false, false⟩ : Streaming Nat).message).1 = MsgResult.err ⟨7⟩
    ∧ collectMessages (Streaming.new epGood 5 true) 4 = streamingRun epGood 5 4 := by
  constructor
  · exact (message_trichotomy_views Nat epErr 0).2.1 ⟨epErr, 0, false, false⟩ ⟨7⟩ rfl rfl
  · exact (message_trichotomy_views Nat epGood 5).2.2 4 true

/-- C10: if the endpoint delivers, at a tag the channel consumes, a message
that is neither the sentinel nor of the item type, the next-item operation
panics through the unchecked downcast unwrap rather than returning an
error or skipping the message; and when every non-sentinel message at the
consumed tags is well typed, the run never panics. -/
theorem wrong_type_panics (T : Type) (ep : Nat → Except Status (Payload T)) (t : Nat) :
    (∀ s : Streaming T, s.terminated = false → s.ep s.cursor = .ok .other →
      (s.message).1 = MsgResult.panicked)
    ∧ (∀ fuel : Nat, (∀ c, t ≤ c → ep c ≠ .ok .other) →
      (streamingRun ep t fuel).2 ≠ Outcome.panicked) := by
  constructor
  · intro s ht hept
    simp [Streaming.message, Streaming.pollNext, ht, hept, transposeOut]
  · intro fuel hok
    exact streamingRun_no_panic ep fuel t hok

/-- Witness for C10: the endpoint delivering a wrongly typed message at
tag 3 makes the next message call panic, while a well-typed endpoint never
panics. -/
theorem wrong_type_panics_inst :
    ((⟨epBad, 3, false, false⟩ : Streaming Nat).message).1 = MsgResult.panicked
    ∧ (streamingRun epGood 5 9).2 ≠ Outcome.panicked := by
  constructor
  · exact (wrong_type_panics Nat epBad 3).1 ⟨epBad, 3, false, false⟩ rfl (by decide)
  · exact (wrong_type_panics Nat epGood 5).2 9
      (by intro c hc; simp only [epGood]; split_ifs <;> simp)

/-- C9: in the send/receive scenario, node 1 binds a listener on
10.0.0.1:1, node 2 connects to it, node 1 writes and flushes the 11-byte
payload "hello world" on the accepted stream, and the read at node 2 returns
exactly those 11 bytes. -/
theorem send_recv_scenario :
    helloWorld.length = 11
    ∧ (emptyWorld.bind 1 addr1).isSome = true
    ∧ (sendRecvW1.connectRequest 2 addr1 0).1 = ConnectOut.established 1
    ∧ (sendRecvW2.acceptConn 1 addr1).1 = AcceptOut.accepted 2 0
    ∧ (sendRecvW4.flush 0 1).1 = FlushOut.ok
    ∧ (sendRecvW5.readStep 0 2).1 = ReadOut.bytes helloWorld := by decide

/-- C3: in the reset scenario, node 1 has accepted a connection from
node 2; after a third party resets node 1, the next flush of node 1 on that
stream fails with connection-reset, the listener of node 1 rejects the pending
accept and refuses new connection requests, and the next read of node 2 on the
peer stream returns zero bytes (a clean end-of-stream) rather than
pending or delivering data. -/
theorem reset_scenario :
    (resetW5.flush 0 1).1 = FlushOut.failed TcpError.connectionReset
    ∧ (resetW5.acceptConn 1 addr1).1 = AcceptOut.failed TcpError.listenerClosed
    ∧ (resetW5.connectRequest 3 addr1 2).1 = ConnectOut.failed TcpError.connectionRefused
    ∧ (resetW5.readStep 0 2).1 = ReadOut.eof := by decide

/-- C4 as stated is false on the code: in phase 2 of the
disconnect_and_recovery test, node 1 has disconnected itself and suspends
in accept; the test requires the surrounding one-second timeout to elapse
(tcp/mod.rs lines 118-120), i.e. the suspended accept neither succeeds nor
fails with a reachability error — it stays suspended. -/
theorem disconnected_accept_pending_cex :
    NetSim.nodeUp discPhase2.net 1 = false
    ∧ (discPhase2.acceptConn 1 addr1).1 = AcceptOut.pending
    ∧ (discPhase2.acceptConn 1 addr1).1 ≠ AcceptOut.failed TcpError.unreachable
    ∧ (discPhase2.acceptConn 1 addr1).1 ≠ AcceptOut.failed TcpError.listenerClosed := by decide

/-- C4 amended: while a node is marked disconnected, every flush, read and
connect attempt involving that node fails immediately with a reachability
error and no queued payload is delivered to or from it; an
already-suspended listener accept on that node, however, remains suspended
(it simply receives no connection requests) rather than failing. -/
theorem disconnected_node_ops (w : World) (n : NodeId) (hn : w.net.nodeUp n = false) :
    (∀ (cid : Nat) (m : NodeId) (h : ConnHalf), w.findHalf cid m = some h →
      (h.localNode = n ∨ h.peerNode = n) → h.state = .opened →
      (w.flush cid m).1 = FlushOut.failed TcpError.unreachable)
    ∧ (∀ (cid : Nat) (m : NodeId) (h : ConnHalf), w.findHalf cid m = some h →
      (h.localNode = n ∨ h.peerNode = n) → h.state = .opened →
      (w.readStep cid m).1 = ReadOut.failed TcpError.unreachable)
    ∧ (∀ (src : NodeId) (addr : SockAddr) (l : ListenerRec),
      w.listeners.find? (fun l2 => l2.addr == addr && l2.alive) = some l →
      (l.node = n ∨ src = n) →
      connectAttempt w.net w.listeners src addr = ConnectOut.failed TcpError.unreachable)
    ∧ (∀ (addr : SockAddr) (l : ListenerRec),
      w.listeners.find? (fun l2 => l2.node == n && l2.addr == addr) = some l →
      l.alive = true → l.pendingQueue = [] →
      (w.acceptConn n addr).1 = AcceptOut.pending) := by
  refine ⟨?_, ?_, ?_, ?_⟩
  · intro cid m h hf hdisj hst
    have hnodes : (w.net.nodeUp h.localNode && w.net.nodeUp h.peerNode) = false := by
      cases hdisj with
      | inl he => rw [he, hn, Bool.false_and]
      | inr he => rw [he, hn, Bool.and_false]
    simp [World.flush, hf, hst, hnodes]
  · intro cid m h hf hdisj hst
    have hnodes : (w.net.nodeUp h.localNode && w.net.nodeUp h.peerNode) = false := by
      cases hdisj with
      | inl he => rw [he, hn, Bool.false_and]
      | inr he => rw [he, hn, Bool.and_false]
    simp [World.readStep, hf, ConnHalf.readStep, hst, hnodes]
  · intro src addr l hf hdisj
    have hr : w.net.reachable src l.node = false := by
      cases hdisj with
      | inl he => simp [NetSim.reachable, he, hn]
      | inr he => simp [NetSim.reachable, he, hn]
    simp [connectAttempt, hf, hr]
  · intro addr l hf halive hq
    simp [World.acceptConn, hf, ListenerRec.acceptStep, halive, hq]

/-- Witness for the amended C4 at a concrete disconnected world. -/
theorem disconnected_node_ops_inst :
    (discWitW.flush 0 1).1 = FlushOut.failed TcpError.unreachable
    ∧ (discWitW.readStep 0 2).1 = ReadOut.failed TcpError.unreachable
    ∧ (discWitW.acceptConn 1 addr1).1 = AcceptOut.pending := by
  refine ⟨?_, ?_, ?_⟩
  · exact (disconnected_node_ops discWitW 1 (by decide)).1 0 1
      ⟨0, 1, 2, .opened, [3], [[7]]⟩ (by decide) (Or.inl rfl) rfl
  · exact (disconnected_node_ops discWitW 1 (by decide)).2.1 0 2
      ⟨0, 2, 1, .opened, [], [[9]]⟩ (by decide) (Or.inr rfl) rfl
  · exact (disconnected_node_ops discWitW 1 (by decide)).2.2.2 addr1
      ⟨1, addr1, true, []⟩ (by decide) rfl rfl

/-- C5: a connect attempt against an address with no live listener fails
with connection-refused; one against a live listener on a currently
disconnected node fails with unreachable; and in every case the attempt
returns rather than suspending. -/
theorem connect_refused_or_unreachable (net : NetSim) (listeners : List ListenerRec)
    (src : NodeId) (addr : SockAddr) :
    (listeners.find? (fun l2 => l2.addr == addr && l2.alive) = none →
      connectAttempt net listeners src addr = ConnectOut.failed TcpError.connectionRefused)
    ∧ (∀ l : ListenerRec, listeners.find? (fun l2 => l2.addr == addr && l2.alive) = some l →
      net.nodeUp l.node = false →
      connectAttempt net listeners src addr = ConnectOut.failed TcpError.unreachable)
    ∧ connectAttempt net listeners src addr ≠ ConnectOut.pending := by
  refine ⟨?_, ?_, ?_⟩
  · intro hf
    simp [connectAttempt, hf]
  · intro l hf hdown
    have hr : net.reachable src l.node = false := by
      simp [NetSim.reachable, hdown]
    simp [connectAttempt, hf, hr]
  · cases hf : listeners.find? (fun l2 => l2.addr == addr && l2.alive) with
    | none => simp [connectAttempt, hf]
    | some l =>
      cases hr : net.reachable src l.node with
      | true => simp [connectAttempt, hf, hr]
      | false => simp [connectAttempt, hf, hr]

/-- Witness for C5: no listener at all gives connection-refused; a live
listener behind the disconnected node 1 gives unreachable. -/
theorem connect_refused_or_unreachable_inst :
    connectAttempt netOk [] 2 addr1 = ConnectOut.failed TcpError.connectionRefused
    ∧ connectAttempt ⟨[1], []⟩ [discListener] 2 addr1 = ConnectOut.failed TcpError.unreachable := by
  constructor
  · exact (connect_refused_or_unreachable netOk [] 2 addr1).1 (by decide)
  · exact (connect_refused_or_unreachable ⟨[1], []⟩ [discListener] 2 addr1).2.1
      discListener (by decide) (by decide)

/-- C6: after disconnect2(a, b), traffic between a and b fails — a connect
from a to a listener on b fails with unreachable and no payload between
them is delivered (their reads stay pending) — while global node
reachability, every unrelated pair, and every read on a half whose
endpoints are not the pair are unaffected; and a payload flushed by a on
an established a-b connection during the pairwise partition stays in
flight, is not observed by the read of b while the pair is muted, and is
returned exactly by a read of b once the pair reconnects. -/
theorem pair_partition (net : NetSim) (a b x y : NodeId) :
    (∀ (listeners : List ListenerRec) (addr : SockAddr) (l : ListenerRec),
      listeners.find? (fun l2 => l2.addr == addr && l2.alive) = some l → l.node = b →
      NetSim.nodeUp net a = true → NetSim.nodeUp net b = true →
      connectAttempt (net.disconnect2 a b) listeners a addr
        = ConnectOut.failed TcpError.unreachable)
    ∧ (∀ h : ConnHalf, h.localNode = a → h.peerNode = b → h.state = .opened →
      NetSim.nodeUp net a = true → NetSim.nodeUp net b = true →
      (ConnHalf.readStep (net.disconnect2 a b) h).1 = ReadOut.pending)
    ∧ (∀ m : NodeId, NetSim.nodeUp (net.disconnect2 a b) m = NetSim.nodeUp net m)
    ∧ (¬((x = a ∧ y = b) ∨ (x = b ∧ y = a)) →
      NetSim.pairUp (net.disconnect2 a b) x y = NetSim.pairUp net x y)
    ∧ (∀ h : ConnHalf,
      ¬((h.localNode = a ∧ h.peerNode = b) ∨ (h.localNode = b ∧ h.peerNode = a)) →
      ConnHalf.readStep (net.disconnect2 a b) h = ConnHalf.readStep net h)
    ∧ (∀ (cid : Nat) (bs : List Nat), a ≠ b → bs ≠ [] →
      ((pairWorld a b cid bs).flush cid a).1 = FlushOut.ok
      ∧ ((((pairWorld a b cid bs).flush cid a).2).readStep cid b).1 = ReadOut.pending
      ∧ (((((pairWorld a b cid bs).flush cid a).2).connect2 a b).readStep cid b).1
        = ReadOut.bytes bs) := by
  refine ⟨?_, ?_, ?_, ?_, ?_, ?_⟩
  · intro listeners addr l hf hl ha hb
    have hr : NetSim.reachable (net.disconnect2 a b) a l.node = false := by
      rw [hl]
      simp [NetSim.reachable, nodeUp_disconnect2, ha, hb, pairUp_disconnect2_self]
    simp [connectAttempt, hf, hr]
  · intro h hl hp hst ha hb
    simp [ConnHalf.readStep, hst, hl, hp, nodeUp_disconnect2, ha, hb,
      pairUp_disconnect2_self]
  · intro m
    exact nodeUp_disconnect2 net a b m
  · intro hxy
    exact pairUp_disconnect2_other net a b x y hxy
  · intro h hne
    exact readStep_congr (net.disconnect2 a b) net h rfl rfl
      (pairUp_disconnect2_other net a b h.localNode h.peerNode hne)
  · intro cid bs hab hbs
    cases bs with
    | nil => exact absurd rfl hbs
    | cons c cs =>
      have hflush := pairWorld_flush a b cid c cs hab
      refine ⟨by rw [hflush], ?_, ?_⟩
      · rw [hflush]
        exact pairWorld_read_pending a b cid (c :: cs) hab
      · rw [hflush]
        exact pairWorld_read_after a b cid (c :: cs) hab

/-- Witness for C6: concrete nodes 1 and 2, a pending hello-world payload
deferred during the pairwise partition and delivered after reconnection,
while the pair (1, 3) stays untouched. -/
theorem pair_partition_inst :
    NetSim.pairUp (netOk.disconnect2 1 2) 1 3 = NetSim.pairUp netOk 1 3
    ∧ ((pairWorld 1 2 0 helloWorld).flush 0 1).1 = FlushOut.ok
    ∧ ((((pairWorld 1 2 0 helloWorld).flush 0 1).2).readStep 0 2).1 = ReadOut.pending
    ∧ (((((pairWorld 1 2 0 helloWorld).flush 0 1).2).connect2 1 2).readStep 0 2).1
      = ReadOut.bytes helloWorld := by
  have h := (pair_partition netOk 1 2 1 3).2.2.2.2.2 0 helloWorld (by decide) (by decide)
  exact ⟨(pair_partition netOk 1 2 1 3).2.2.2.1 (by decide), h.1, h.2.1, h.2.2⟩

end MadsimProof
